import Mathlib

/-!
Verification of the session-and-process orchestration layer of the bender
repository (src/bender/claude_code.py, job_tracker.py, session_manager.py,
slack_handler.py), shallowly embedded in Lean.

Modelling conventions:
* Python/JSON dynamic values are embedded as `JValue`; `json.loads` of a
  string is supplied as an `Option JValue` argument (`none` = JSONDecodeError),
  since the JSON text syntax itself is Python-stdlib behaviour, not repository
  code.
* Python exceptions are embedded as `Except PyErr`; a function that cannot
  raise is total.
* Ints and floats are collapsed into `JValue.num : Int` — the code under
  verification only carries these numbers around, it never computes with them.
* Logging calls are treated as no-ops.  (Note: `logger.debug` in Python still
  evaluates its arguments eagerly; the only places this matters are debug
  lines computing `len(...)` or `.keys()` of a value, and in each such place
  the very next non-logging statement performs the same raising operation, so
  abstracting the logging away does not change which inputs raise, except for
  debug lines of the form `len(result) if result else 0` which we do not
  model.)
-/

namespace Bender

/-- Embedded JSON / Python dynamic value. Numbers collapse int and float. -/
inductive JValue where
  | null
  | bool (b : Bool)
  | num (n : Int)
  | str (s : String)
  | arr (elems : List JValue)
  | obj (fields : List (String × JValue))


/-- Python truthiness of a dynamic value. -/
def JValue.truthy : JValue → Bool
  | .null => false
  | .bool b => b
  | .num n => n != 0
  | .str s => s != ""
  | .arr xs => !xs.isEmpty
  | .obj fs => !fs.isEmpty

/-- Python `x == "lit"` where `x` is dynamic: in Python no non-`str` value
compares equal to a `str`, so only the `str` case can be true. -/
def JValue.eqStr : JValue → String → Bool
  | .str a, b => a == b
  | _, _ => false

/-- Lookup of a key in a JSON object's field list (dict keys are unique). -/
def jlookup : List (String × JValue) → String → Option JValue
  | [], _ => none
  | (k, v) :: rest, key => if k == key then some v else jlookup rest key

/-- Python `d.get(key, default)` on a value already known to be a dict. -/
def jGetD (fields : List (String × JValue)) (key : String) (default : JValue) : JValue :=
  (jlookup fields key).getD default

/-- Python `a or b` on dynamic values. -/
def pyOr (a b : JValue) : JValue :=
  if a.truthy then a else b

/-- Python `str.strip()` with no argument: remove leading and trailing
whitespace.  (Executable model of the stdlib call, used instead of the
library's trimming function, whose substring auxiliaries do not reduce in
the kernel.) -/
def pyStrip (s : String) : String :=
  ⟨((s.toList.dropWhile Char.isWhitespace).reverse.dropWhile Char.isWhitespace).reverse⟩

/-- Python exceptions relevant to the embedded code. -/
inductive PyErr where
  | attributeError
  | typeError
  | claudeCode (msg : String)


/-- Python `for x in v`: the sequence of items iterating over a dynamic value
yields, or a `TypeError` for non-iterables. Iterating a string yields its
characters (as one-character strings); iterating a dict yields its keys. -/
def pyIter : JValue → Except PyErr (List JValue)
  | .arr xs => .ok xs
  | .str s => .ok (s.toList.map fun c => .str c.toString)
  | .obj fs => .ok (fs.map fun kv => .str kv.fst)
  | _ => .error .typeError

/-- `ClaudeResponse` dataclass (claude_code.py lines 66-75). Python does not
enforce the field annotations, so fields are dynamic values; the dataclass
defaults are `is_error=False`, token counts `0`, `total_cost=0.0`. -/
structure ClaudeResponse where
  result : JValue
  session_id : JValue
  is_error : JValue := .bool false
  input_tokens : JValue := .num 0
  output_tokens : JValue := .num 0
  total_cost : JValue := .num 0


/-! ### `_parse_response` (claude_code.py lines 221-312) -/

/-- Accumulator of the first event-list loop of `_parse_response`
(lines 233-253): `final_result`, `returned_session_id`, `is_error` and the
token/cost counters, with their initial values set at lines 233-238. -/
structure ScanAcc where
  final_result : JValue
  returned_session_id : JValue
  is_error : JValue
  input_tokens : JValue
  output_tokens : JValue
  total_cost : JValue


/-- One iteration of the first event-list loop (lines 240-253): non-dict
events are skipped; `event_type = event.get("type") or event.get("subtype")`;
a `"result"` event overwrites every accumulator field (with `or 0` applied to
the counters); otherwise an event with `subtype == "success"` overwrites only
`final_result` (defaulting to the previous value). -/
def scanStep (acc : ScanAcc) (event : JValue) : ScanAcc :=
  match event with
  | .obj fields =>
    let etype := pyOr (jGetD fields "type" .null) (jGetD fields "subtype" .null)
    if etype.eqStr "result" then
      { final_result := jGetD fields "result" (.str "")
        returned_session_id := jGetD fields "session_id" acc.returned_session_id
        is_error := jGetD fields "is_error" (.bool false)
        input_tokens := pyOr (jGetD fields "input_tokens" (.num 0)) (.num 0)
        output_tokens := pyOr (jGetD fields "output_tokens" (.num 0)) (.num 0)
        total_cost := pyOr (jGetD fields "total_cost_usd" (.num 0)) (.num 0) }
    else if (jGetD fields "subtype" .null).eqStr "success" then
      { acc with final_result := jGetD fields "result" acc.final_result }
    else acc
  | _ => acc

/-- Inner block loop of the assistant-message fallback (lines 272-281): the
first dict block with `type == "text"` and truthy `text` yields a response
carrying that text, the accumulated session id and `is_error=False`. -/
def blockScan (rsid : JValue) : List JValue → Option ClaudeResponse
  | [] => none
  | b :: rest =>
    match b with
    | .obj bf =>
      if (jGetD bf "type" .null).eqStr "text" then
        let text := jGetD bf "text" (.str "")
        if text.truthy then
          some { result := text, session_id := rsid }
        else blockScan rsid rest
      else blockScan rsid rest
    | _ => blockScan rsid rest

/-- Assistant-message fallback loop of `_parse_response` (lines 266-281):
scan for the first assistant event containing a truthy text block.
`msg.get("content", [])` raises `AttributeError` when the event's `message`
is not a dict, and `for block in content` raises `TypeError` when `content`
is not iterable; neither raise is caught inside `_parse_response`. -/
def assistantScan (rsid : JValue) : List JValue → Except PyErr (Option ClaudeResponse)
  | [] => .ok none
  | event :: rest =>
    match event with
    | .obj fields =>
      if (jGetD fields "type" .null).eqStr "assistant" then
        match jGetD fields "message" (.obj []) with
        | .obj mf =>
          match pyIter (jGetD mf "content" (.arr [])) with
          | .error e => .error e
          | .ok blocks =>
            match blockScan rsid blocks with
            | some r => .ok (some r)
            | none => assistantScan rsid rest
        | _ => .error .attributeError
      else assistantScan rsid rest
    | _ => assistantScan rsid rest

/-- Event-list branch of `_parse_response` (lines 230-285): run the result
scan; if `final_result` is truthy, return the accumulated response; otherwise
fall back to the assistant scan; otherwise return the trimmed raw output with
the caller-supplied session id. -/
def parseEventList (raw_output session_id : String) (events : List JValue) :
    Except PyErr ClaudeResponse :=
  let acc := events.foldl scanStep
    { final_result := .str ""
      returned_session_id := .str session_id
      is_error := .bool false
      input_tokens := .num 0
      output_tokens := .num 0
      total_cost := .num 0 }
  if acc.final_result.truthy then
    .ok { result := acc.final_result
          session_id := acc.returned_session_id
          is_error := acc.is_error
          input_tokens := acc.input_tokens
          output_tokens := acc.output_tokens
          total_cost := acc.total_cost }
  else
    match assistantScan acc.returned_session_id events with
    | .error e => .error e
    | .ok (some r) => .ok r
    | .ok none => .ok { result := .str (pyStrip raw_output), session_id := .str session_id }

/-- `_parse_response(raw_output, session_id)` (lines 221-312).  The `parsed`
argument is the outcome of `json.loads(raw_output)` (`none` for a
`JSONDecodeError`, which the function catches at line 288 and turns into the
raw-text fallback).  A parsed value that is neither a list nor a dict reaches
`data.keys()` / `data.get(...)` (lines 287, 295) and raises `AttributeError`,
which is not caught. -/
def parse_response (raw_output session_id : String) (parsed : Option JValue) :
    Except PyErr ClaudeResponse :=
  match parsed with
  | none =>
    .ok { result := .str (pyStrip raw_output), session_id := .str session_id }
  | some (.arr events) => parseEventList raw_output session_id events
  | some (.obj fields) =>
    .ok { result := jGetD fields "result" (.str (pyStrip raw_output))
          session_id := jGetD fields "session_id" (.str session_id)
          is_error := jGetD fields "is_error" (.bool false)
          input_tokens := pyOr (jGetD fields "input_tokens" (.num 0)) (.num 0)
          output_tokens := pyOr (jGetD fields "output_tokens" (.num 0)) (.num 0)
          total_cost := pyOr (jGetD fields "total_cost_usd" (.num 0)) (.num 0) }
  | some _ => .error .attributeError

/-! ### Argument-list construction (claude_code.py lines 126-137 and 348-358) -/

/-- Python truthiness of a `str | None` value (`None` and `""` are falsy). -/
def strTruthy : Option String → Bool
  | none => false
  | some s => s != ""

/-- Session-continuation and prompt portion of the command line, shared
verbatim by both invocation modes (lines 129-137 resp. 350-358):
`--model` when `model` is truthy; then `--resume <sid>` when
`resume and session_id`, else `--session-id <sid>` when `session_id`;
then the terminating `--` and the prompt. -/
def cmdTail (model sessionId : Option String) (resume : Bool) (prompt : String) :
    List String :=
  (if strTruthy model then ["--model", model.getD ""] else [])
    ++ (if resume && strTruthy sessionId then ["--resume", sessionId.getD ""]
        else if strTruthy sessionId then ["--session-id", sessionId.getD ""]
        else [])
    ++ ["--", prompt]

/-- Argument list built by `invoke_claude` (lines 126-137). -/
def invokeClaudeCmd (exe : String) (model sessionId : Option String)
    (resume : Bool) (prompt : String) : List String :=
  [exe, "--print", "--verbose", "--output-format", "json"]
    ++ cmdTail model sessionId resume prompt

/-- Argument list built by `invoke_claude_streaming` (lines 348-358). -/
def invokeClaudeStreamingCmd (exe : String) (model sessionId : Option String)
    (resume : Bool) (prompt : String) : List String :=
  [exe, "--verbose", "--output-format", "stream-json"]
    ++ cmdTail model sessionId resume prompt

/-! ### Batch invocation (claude_code.py lines 146-218) -/

/-- Outcome of `process.communicate()` as seen by `invoke_claude`:
either the process completed (stdout with its `json.loads` result, stderr,
exit code) or `asyncio.wait_for` raised `TimeoutError`. -/
inductive CommOutcome where
  | completed (stdout_raw : String) (stdout_parsed : Option JValue)
      (stderr : String) (exitCode : Int)
  | timedOut

/-- Filesystem oracle for the per-session state directory
`~/.claude/projects/<session_id>`: whether it exists and whether deleting it
fails (`shutil.rmtree` raising). -/
structure FsOracle where
  dirExists : Bool
  rmFails : Bool

/-- Observable outcome of one `invoke_claude` run: how many times
`process.kill()` ran, whether the session-directory cleanup was attempted
and succeeded, and the returned response or raised error. -/
structure BatchOutcome where
  kills : Nat
  cleanupAttempted : Bool
  cleanupSucceeded : Bool
  result : Except PyErr ClaudeResponse

/-- `invoke_claude` after process creation (lines 166-218).  On
`asyncio.TimeoutError` (lines 190-204): `process.kill()` once, best-effort
deletion of the session directory when `session_id` is truthy (any cleanup
exception is swallowed at lines 202-203), then
`ClaudeCodeError(f"Claude Code timed out after {timeout}s")`.  On completion
with non-zero exit (lines 206-209): `ClaudeCodeError` carrying the exit code
and trimmed stderr, or `"Unknown error"` when stderr is empty.  Otherwise the
stdout is parsed by `_parse_response` with fallback `session_id or ""`. -/
def invoke_claude_model (sessionId : Option String) (timeout : Int)
    (comm : CommOutcome) (fs : FsOracle) : BatchOutcome :=
  match comm with
  | .timedOut =>
    let attempted := strTruthy sessionId
    { kills := 1
      cleanupAttempted := attempted
      cleanupSucceeded := attempted && fs.dirExists && !fs.rmFails
      result := .error (.claudeCode
        ("Claude Code timed out after " ++ toString timeout ++ "s")) }
  | .completed raw parsed stderr exit =>
    if exit != 0 then
      let errMsg := if stderr != "" then pyStrip stderr else "Unknown error"
      { kills := 0
        cleanupAttempted := false
        cleanupSucceeded := false
        result := .error (.claudeCode
          ("Claude Code exited with code " ++ toString exit ++ ": " ++ errMsg)) }
    else
      { kills := 0
        cleanupAttempted := false
        cleanupSucceeded := false
        result := parse_response raw (sessionId.getD "") parsed }

/-! ### Streaming invocation (claude_code.py lines 315-577) -/

/-- The `StreamingProgress` dataclass (lines 78-88), shared mutable state of
one streaming invocation.  `is_thinking` is only ever assigned the literals
`True`/`False`, so it stays a `Bool`; the remaining fields receive values
taken from parsed events, so they are dynamic. -/
structure ProgressS where
  current_text : JValue := .str ""
  tool_name : JValue := .null
  tool_status : JValue := .null
  is_thinking : Bool := false
  total_cost : JValue := .num 0
  input_tokens : JValue := .num 0
  output_tokens : JValue := .num 0

/-- State threaded through `read_stream` (lines 425-496).

`localFinal` and `localSession` model the variables `final_result` and
`returned_session_id` *inside* `read_stream`: the function assigns them
without a `nonlocal` declaration (it declares `nonlocal` only for
`line_count`), so in Python they are locals of `read_stream`, distinct from
the outer accumulators of lines 382-383, and start out unbound (`none`).

`callbacks` records the `StreamingProgress` snapshots passed to the progress
callback; `checks` counts the rate-limit time checks performed by
`maybe_send_update`, used to index the rate oracle. -/
structure StreamState where
  progress : ProgressS := {}
  localFinal : Option JValue := none
  localSession : Option JValue := none
  callbacks : List ProgressS := []
  checks : Nat := 0

/-- `maybe_send_update(force)` (lines 407-415): no-op when there is no
callback; otherwise emit the current progress when forced or when the rate
oracle says `update_interval` seconds have elapsed since the last emission
(real-time rate limiting abstracted as a Boolean oracle per check). -/
def maybeSend (force hasCB : Bool) (oracle : Nat → Bool) (st : StreamState) :
    StreamState :=
  if hasCB then
    if force || oracle st.checks then
      { st with callbacks := st.callbacks ++ [st.progress], checks := st.checks + 1 }
    else
      { st with checks := st.checks + 1 }
  else st

/-- Inner block loop of the `assistant` event handler (lines 451-454):
each block with `type == "text"` sets `progress.current_text` and the
(read_stream-local) `final_result`.  Unlike `_parse_response`, there is no
`isinstance` guard here, so `block.get` on a non-dict block raises
`AttributeError` (to be caught by the per-line handler, keeping the state
mutated so far). -/
def streamBlocksFold (st : StreamState) : List JValue → Except StreamState StreamState
  | [] => .ok st
  | b :: rest =>
    match b with
    | .obj bf =>
      if (jGetD bf "type" .null).eqStr "text" then
        let t := jGetD bf "text" (.str "")
        streamBlocksFold
          { st with progress := { st.progress with current_text := t },
                    localFinal := some t } rest
      else streamBlocksFold st rest
    | _ => .error st

/-- Body of the per-line `try` block of `read_stream` (lines 443-493) for one
stdout line.  `Except.error st` models an exception reaching the per-line
handler with the mutations performed up to the raise point; `Except.ok st`
a normally-completed iteration.

Raise points, in source order:
* `json.loads` failure (`parsed = none`);
* `event.get("type", "")` on a non-dict line (`AttributeError`);
* in `assistant`: `message.get`/iteration/`block.get` on ill-shaped values;
* in `content_block_delta`: `delta.get` on a non-dict, and
  `progress.current_text += text` when either side is not a string
  (`TypeError`);
* in `tool_use`: `.get("name", ...)` on a non-dict `tool`;
* in `result`: the defaults of lines 484-485 *read* the read_stream-local
  `final_result` / `returned_session_id`; `returned_session_id` has never
  been assigned in this scope (line 485 is the only assignment and its
  right-hand side raises first), so line 485 always raises
  `UnboundLocalError` and lines 486-488 (the token/cost updates) never run;
  line 484 raises too unless a text event bound `final_result` earlier;
* in `error`: the deliberate `raise ClaudeCodeError` of line 492 — which is
  still inside this same `try`, so it is caught by the
  `except Exception` of line 494 like any other exception. -/
def processLineE (hasCB : Bool) (oracle : Nat → Bool) (st : StreamState)
    (parsed : Option JValue) : Except StreamState StreamState :=
  match parsed with
  | none => .error st
  | some ev =>
    match ev with
    | .obj fields =>
      let etype := jGetD fields "type" (.str "")
      if etype.eqStr "assistant" then
        match jGetD fields "message" (.obj []) with
        | .obj mf =>
          match pyIter (jGetD mf "content" (.arr [])) with
          | .error _ => .error st
          | .ok blocks =>
            match streamBlocksFold st blocks with
            | .error st' => .error st'
            | .ok st' =>
              let st' := { st' with progress :=
                { st'.progress with is_thinking := false, tool_name := .null } }
              .ok (maybeSend false hasCB oracle st')
        | _ => .error st
      else if etype.eqStr "content_block_delta" then
        match jGetD fields "delta" (.obj []) with
        | .obj df =>
          if (jGetD df "type" .null).eqStr "text_delta" then
            match st.progress.current_text, jGetD df "text" (.str "") with
            | .str a, .str b =>
              .ok { st with progress := { st.progress with current_text := .str (a ++ b) },
                            localFinal := some (.str (a ++ b)) }
            | _, _ => .error st
          else .ok st
        | _ => .error st
      else if etype.eqStr "tool_use" then
        match jGetD fields "tool" (.obj []) with
        | .obj tf =>
          let name := jGetD tf "name" (.str "unknown")
          .ok (maybeSend true hasCB oracle
            { st with progress := { st.progress with
                tool_name := name, tool_status := .str "running", is_thinking := false } })
        | _ => .error st
      else if etype.eqStr "tool_result" then
        .ok (maybeSend true hasCB oracle
          { st with progress := { st.progress with tool_status := .str "completed" } })
      else if etype.eqStr "thinking" then
        .ok (maybeSend false hasCB oracle
          { st with progress := { st.progress with is_thinking := true, tool_name := .null } })
      else if etype.eqStr "result" then
        match st.localFinal with
        | none => .error st
        | some fr =>
          let st := { st with localFinal := some (jGetD fields "result" fr) }
          match st.localSession with
          | none => .error st
          | some rs =>
            .ok { st with
              localSession := some (jGetD fields "session_id" rs)
              progress := { st.progress with
                total_cost := jGetD fields "total_cost_usd" (.num 0)
                input_tokens := jGetD fields "input_tokens" (.num 0)
                output_tokens := jGetD fields "output_tokens" (.num 0) } }
      else if etype.eqStr "error" then
        .error st
      else
        .ok st
    | _ => .error st

/-- One stdout line of `read_stream`: the per-line `except Exception` handler
(lines 494-496) logs and continues, so both outcomes keep the state. -/
def processLine (hasCB : Bool) (oracle : Nat → Bool) (st : StreamState)
    (parsed : Option JValue) : StreamState :=
  match processLineE hasCB oracle st parsed with
  | .ok st' => st'
  | .error st' => st'

/-- Observable outcome of one `invoke_claude_streaming` run. -/
structure StreamRun where
  state : StreamState
  kills : Nat
  cleanupAttempted : Bool
  cleanupSucceeded : Bool
  result : Except PyErr ClaudeResponse

/-- `invoke_claude_streaming` after process creation (lines 380-577).

Inputs: `lines` is the stream of parsed stdout lines (one entry per
non-empty stripped line, `none` for a line that fails `json.loads`);
`timeoutAfter = some k` means `asyncio.wait_for` raised `TimeoutError` after
`k` lines were processed (only possible when `timeout > 0`), `none` means
the stream completed; `procRunning` is whether `process.returncode is None`
at the moment of timeout handling; the stderr pump only produces extra
rate-limited terminal-echo callbacks and is not modelled.

On timeout (lines 516-532): kill if still running, best-effort session
directory cleanup, `ClaudeCodeError(f"Claude Code timed out after ...s")`
(re-raised unchanged by the outer handler of lines 570-576, which performs
no further kill because the inner handler already waited the process out).
On non-zero exit (lines 547-551): `ClaudeCodeError` with exit code and
stderr (or `"Unknown error"`).  On clean completion (lines 553-568): clear
`tool_name`, `tool_status` and `is_thinking`, one forced callback, then
return the response.  The returned `result` and `session_id` come from the
*outer* `final_result` / `returned_session_id` of lines 382-383; since
`read_stream` only ever assigned its own locals (see `StreamState`), they
still hold their initial values `""` and `session_id or ""`. -/
def invoke_claude_streaming_model (sessionId : Option String) (timeout : Int)
    (lines : List (Option JValue)) (timeoutAfter : Option Nat)
    (procRunning : Bool) (exitCode : Int) (stderrTail : String)
    (fs : FsOracle) (hasCB : Bool) (oracle : Nat → Bool) : StreamRun :=
  let outerFinal : String := ""
  let outerSession : String := (sessionId.getD "")
  match timeoutAfter with
  | some k =>
    let st := (lines.take k).foldl (processLine hasCB oracle) {}
    let attempted := strTruthy sessionId
    { state := st
      kills := if procRunning then 1 else 0
      cleanupAttempted := attempted
      cleanupSucceeded := attempted && fs.dirExists && !fs.rmFails
      result := .error (.claudeCode
        ("Claude Code timed out after " ++ toString timeout ++ "s")) }
  | none =>
    let st := lines.foldl (processLine hasCB oracle) {}
    if exitCode != 0 then
      let errMsg := if stderrTail != "" then pyStrip stderrTail else "Unknown error"
      { state := st
        kills := 0
        cleanupAttempted := false
        cleanupSucceeded := false
        result := .error (.claudeCode
          ("Claude Code exited with code " ++ toString exitCode ++ ": " ++ errMsg)) }
    else
      let st := { st with progress := { st.progress with
        tool_name := .null, tool_status := .null, is_thinking := false } }
      let st := maybeSend true hasCB oracle st
      { state := st
        kills := 0
        cleanupAttempted := false
        cleanupSucceeded := false
        result := .ok
          { result := .str outerFinal
            session_id := .str outerSession
            is_error := .bool false
            input_tokens := st.progress.input_tokens
            output_tokens := st.progress.output_tokens
            total_cost := st.progress.total_cost } }

/-! ### Job ledger (job_tracker.py) -/

/-- One progress-log entry as built by `add_progress_event`
(job_tracker.py lines 320-326); the server timestamp is abstract. -/
structure ProgressEvent where
  type : String
  message : String
  timestamp : String
  tool_name : Option String
  is_thinking : Bool

/-- One row of the `jobs` table (job_tracker.py lines 53-72).  The JSON
(de)serialisation of the `progress` column is abstracted: the column is
modelled directly as the event list it encodes.  `REAL` columns are modelled
as rationals. -/
structure JobRow where
  id : String := ""
  thread_ts : String := ""
  channel : String := ""
  message : String := ""
  status : String := ""
  session_id : Option String := none
  created_at : String := ""
  started_at : Option String := none
  completed_at : Option String := none
  result : Option String := none
  error : Option String := none
  input_tokens : Int := 0
  output_tokens : Int := 0
  total_cost_usd : ℚ := 0
  duration_seconds : ℚ := 0
  progress : List ProgressEvent := []

/-- The optional arguments of `update_job` (job_tracker.py lines 134-146);
`status` is the only required one. -/
structure UpdateParams where
  status : String
  started_at : Option String := none
  completed_at : Option String := none
  result : Option String := none
  error : Option String := none
  input_tokens : Option Int := none
  output_tokens : Option Int := none
  total_cost_usd : Option ℚ := none
  duration_seconds : Option ℚ := none

/-- Effect of `update_job`'s dynamically-built `UPDATE` statement on one row
(job_tracker.py lines 163-205): `status` is always written; each optional
column is written only when the corresponding argument `is not None`. -/
def updateJobRow (row : JobRow) (p : UpdateParams) : JobRow :=
  { row with
    status := p.status
    started_at := match p.started_at with | some v => some v | none => row.started_at
    completed_at := match p.completed_at with | some v => some v | none => row.completed_at
    result := match p.result with | some v => some v | none => row.result
    error := match p.error with | some v => some v | none => row.error
    input_tokens := match p.input_tokens with | some v => v | none => row.input_tokens
    output_tokens := match p.output_tokens with | some v => v | none => row.output_tokens
    total_cost_usd := match p.total_cost_usd with | some v => v | none => row.total_cost_usd
    duration_seconds := match p.duration_seconds with | some v => v | none => row.duration_seconds }

/-- `update_job(job_id, ...)` over the whole table
(`UPDATE jobs SET ... WHERE id = ?`, job_tracker.py lines 201-206). -/
def update_job (table : List JobRow) (jobId : String) (p : UpdateParams) :
    List JobRow :=
  table.map fun r => if r.id == jobId then updateJobRow r p else r

/-- `create_job` (job_tracker.py lines 99-132): insert a new row with
status `pending`, the generated id and the server creation timestamp. -/
def create_job (table : List JobRow) (jobId thread channel message : String)
    (sessionId : Option String) (now : String) : List JobRow :=
  table ++ [{ id := jobId, thread_ts := thread, channel := channel,
              message := message, status := "pending", session_id := sessionId,
              created_at := now }]

/-- `add_progress_event` (job_tracker.py lines 301-343): `SELECT progress
FROM jobs WHERE id = ?`; when a row is found, append the new event to its
decoded progress list and write the encoded list back with
`UPDATE ... WHERE id = ?`; when no row is found (`if row:` is false) nothing
is read back, nothing is written, and no error is raised. -/
def add_progress_event (table : List JobRow) (jobId eventType message : String)
    (toolName : Option String) (isThinking : Bool) (now : String) : List JobRow :=
  let ev : ProgressEvent :=
    { type := eventType, message := message, timestamp := now,
      tool_name := toolName, is_thinking := isThinking }
  match table.find? (fun r => r.id == jobId) with
  | none => table
  | some row =>
    let newList := row.progress ++ [ev]
    table.map fun r => if r.id == jobId then { r with progress := newList } else r

/-- Modelled from the spec: `get_job_by_thread(thread_id)` is called by
slack_handler.py (lines 63 and 287) but absent from the source's JobTracker;
per spec §4.3 it returns the most-recent record for that thread, or absent.
Recency is by `created_at` (SQLite `CURRENT_TIMESTAMP` strings order
lexicographically). -/
def get_job_by_thread (table : List JobRow) (thread : String) : Option JobRow :=
  (table.filter fun r => r.thread_ts == thread).foldl
    (fun acc r =>
      match acc with
      | none => some r
      | some b => if b.created_at ≤ r.created_at then some r else some b)
    none

/-- Modelled from the spec: `append_to_result(job_id, text)` is called by
slack_handler.py (lines 189 and 417) but absent from the source's JobTracker;
per spec §4.3 it concatenates onto the existing `result` field rather than
replacing it (an absent prior result is treated as empty). -/
def append_to_result (table : List JobRow) (jobId text : String) : List JobRow :=
  table.map fun r =>
    if r.id == jobId then { r with result := some ((r.result.getD "") ++ text) } else r

/-! ### Session registry (session_manager.py) -/

/-- The in-memory thread→session dict, as an association list with unique
keys (all operations hold the registry lock, so they are modelled
sequentially). -/
def slookup : List (String × String) → String → Option String
  | [], _ => none
  | (k, v) :: rest, key => if k == key then some v else slookup rest key

/-- `remove_session` (session_manager.py lines 34-47): delete the entry and
report whether it existed. -/
def remove_session (sessions : List (String × String)) (thread : String) :
    List (String × String) × Bool :=
  if sessions.any (fun kv => kv.fst == thread) then
    (sessions.filter fun kv => kv.fst != thread, true)
  else (sessions, false)

/-- Observable outcome of `abort_session`: the registry afterwards, the
returned boolean, and whether `shutil.rmtree` was invoked. -/
structure AbortOutcome where
  sessions : List (String × String)
  succeeded : Bool
  rmtreeCalled : Bool

/-- `abort_session` (session_manager.py lines 49-75): look up the thread's
session; when one exists (truthy), if the session directory exists delete it,
remove the registry entry and return `True`; when the directory does not
exist, fall through to `return False` with the registry untouched; when
`rmtree` raises, the `except` logs and falls through to `return False` with
the registry untouched; with no session, return `False`. -/
def abort_session (sessions : List (String × String)) (thread : String)
    (fs : FsOracle) : AbortOutcome :=
  match slookup sessions thread with
  | none => { sessions := sessions, succeeded := false, rmtreeCalled := false }
  | some sid =>
    if sid != "" then
      if fs.dirExists then
        if fs.rmFails then
          { sessions := sessions, succeeded := false, rmtreeCalled := true }
        else
          { sessions := (remove_session sessions thread).fst, succeeded := true,
            rmtreeCalled := true }
      else
        { sessions := sessions, succeeded := false, rmtreeCalled := false }
    else
      { sessions := sessions, succeeded := false, rmtreeCalled := false }

/-- `create_session` (session_manager.py lines 77-90): store the freshly
generated id for the thread (overwriting any existing mapping). -/
def create_session (sessions : List (String × String)) (thread freshSid : String) :
    List (String × String) :=
  (sessions.filter fun kv => kv.fst != thread) ++ [(thread, freshSid)]

/-! ### Thread-reply orchestration (slack_handler.py, `handle_message`,
lines 256-478) -/

/-- The fields of the invoker's response consumed by the handler
(`response.result`, and the token/cost counters read with
`getattr(response, ..., 0) or 0`, which is the identity on numbers). -/
structure RespS where
  result : String
  input_tokens : Int := 0
  output_tokens : Int := 0
  total_cost : ℚ := 0

/-- Arguments of the `invoke_claude` call issued by the handler
(lines 382-389): the prompt, session id and resume flag. -/
structure InvokeArgs where
  prompt : String
  sessionId : Option String
  resume : Bool

/-- Ledger operations issued by the handler, in call order. -/
inductive LedgerOp where
  | createJob (jobId thread channel message : String) (sessionId : Option String)
  | updateJob (jobId : String) (p : UpdateParams)
  | addProgress (jobId eventType message : String)
  | appendToResult (jobId text : String)

/-- Observable outcome of one `handle_message` run. -/
structure HandlerRun where
  table : List JobRow
  ops : List LedgerOp
  invocation : Option InvokeArgs
  createdNewJob : Bool

/-- Continuation of `handle_message` once a job id is at hand (lines
293-445), parameterised over whether an existing job was reused.  In order:
`update_job(status=running, started_at=now)`; the immediate first
`send_progress_update()` which records a `"progress"` event reading
`"⏳ Working... (30s)"` (progress_count 1 → 30 s, lines 349-375); the
`invoke_claude(resume=True, session_id=...)` call; then on success either
the empty-response path (lines 398-409: `update_job` with `result=""`) or —
for an existing job — `append_to_result` of the first 5000 characters
followed by `update_job` with the token/cost counters (lines 414-426), and
for a new job a single `update_job` carrying the truncated result
(lines 427-436); on `ClaudeCodeError` the job is marked failed
(lines 446-464).  The post-hoc `scan_new_commits` touches only the commits
table and is not modelled.  Slack API calls are external I/O. -/
def runJobFlow (table : List JobRow) (jobId : String) (isExisting : Bool)
    (sid text now : String) (invokeOutcome : Except String RespS) :
    List LedgerOp × List JobRow × InvokeArgs :=
  let p1 : UpdateParams := { status := "running", started_at := some now }
  let t1 := update_job table jobId p1
  let workingMsg := "⏳ Working... (30s)"
  let t2 := add_progress_event t1 jobId "progress" workingMsg none false now
  let inv : InvokeArgs := { prompt := text, sessionId := some sid, resume := true }
  match invokeOutcome with
  | .error e =>
    let pf : UpdateParams := { status := "failed", completed_at := some now,
                               error := some e }
    ([.updateJob jobId p1, .addProgress jobId "progress" workingMsg,
      .updateJob jobId pf],
     update_job t2 jobId pf, inv)
  | .ok resp =>
    if resp.result == "" || pyStrip resp.result == "" then
      let p2 : UpdateParams := { status := "completed", completed_at := some now,
                                 result := some "" }
      ([.updateJob jobId p1, .addProgress jobId "progress" workingMsg,
        .updateJob jobId p2],
       update_job t2 jobId p2, inv)
    else if isExisting then
      let appended := resp.result.take 5000
      let t3 := append_to_result t2 jobId appended
      let p3 : UpdateParams := { status := "completed", completed_at := some now,
                                 input_tokens := some resp.input_tokens,
                                 output_tokens := some resp.output_tokens,
                                 total_cost_usd := some resp.total_cost }
      ([.updateJob jobId p1, .addProgress jobId "progress" workingMsg,
        .appendToResult jobId appended, .updateJob jobId p3],
       update_job t3 jobId p3, inv)
    else
      let p3 : UpdateParams := { status := "completed", completed_at := some now,
                                 result := some (resp.result.take 5000),
                                 input_tokens := some resp.input_tokens,
                                 output_tokens := some resp.output_tokens,
                                 total_cost_usd := some resp.total_cost }
      ([.updateJob jobId p1, .addProgress jobId "progress" workingMsg,
        .updateJob jobId p3],
       update_job t2 jobId p3, inv)

/-- `handle_message` (slack_handler.py lines 256-478) for a non-bot thread
reply, with mention stripping and URL enrichment already applied to `text`
(both are external collaborators).  A thread with no tracked session is
ignored (lines 268-271), as is an effectively-empty text (lines 273-275).
With an existing job for the thread (via `get_job_by_thread`) the job is
reused; otherwise a new job is created with `freshId` (lines 283-312). -/
def handle_message_model (sessions : List (String × String))
    (table : List JobRow) (thread channel text now freshId : String)
    (invokeOutcome : Except String RespS) : HandlerRun :=
  match slookup sessions thread with
  | none => { table := table, ops := [], invocation := none, createdNewJob := false }
  | some sid =>
    if sid == "" then
      { table := table, ops := [], invocation := none, createdNewJob := false }
    else if pyStrip text == "" then
      { table := table, ops := [], invocation := none, createdNewJob := false }
    else
      match get_job_by_thread table thread with
      | some job =>
        let (ops, t, inv) := runJobFlow table job.id true sid text now invokeOutcome
        { table := t, ops := ops, invocation := some inv, createdNewJob := false }
      | none =>
        let t0 := create_job table freshId thread channel text (some sid) now
        let (ops, t, inv) := runJobFlow t0 freshId false sid text now invokeOutcome
        { table := t,
          ops := .createJob freshId thread channel text (some sid) :: ops,
          invocation := some inv, createdNewJob := true }

/-! ## Theorems -/

/-- C4 counterexample: the stdout string `"42"` is valid JSON but neither an
object nor an array, so `_parse_response` reaches `data.keys()` /
`data.get(...)` (claude_code.py lines 287, 295) on an `int` and raises
`AttributeError` instead of returning a response — refuting the claim that
the function terminates normally for *every* stdout string. -/
theorem c4_counterexample :
    parse_response "42" "fallback-id" (some (.num 42)) = .error .attributeError :=
  rfl

/-- C4 (amended): for every stdout string that does not parse as JSON, batch
response parsing terminates normally and returns the trimmed raw text as the
result, `is_error = false`, and the caller-supplied fallback session id; but
for stdout that parses to a bare JSON scalar (neither object nor array) the
function raises `AttributeError` instead of returning. -/
theorem c4_nonjson_fallback :
    (∀ raw sid : String,
      parse_response raw sid none =
        .ok { result := .str (pyStrip raw), session_id := .str sid,
              is_error := .bool false, input_tokens := .num 0,
              output_tokens := .num 0, total_cost := .num 0 })
    ∧ (∀ (raw sid : String) (n : Int),
        parse_response raw sid (some (.num n)) = .error .attributeError) :=
  ⟨fun _ _ => rfl, fun _ _ _ => rfl⟩

/-- C5: for a well-formed single JSON object on stdout containing string
values for `result` and `session_id` and a Boolean `is_error`, batch parsing
reproduces those three fields exactly; and for a JSON object missing the
`result` key, parsing yields the trimmed raw stdout as the result and the
caller-supplied session id when `session_id` is absent. -/
theorem c5_object_fields :
    (∀ (raw sid : String) (fields : List (String × JValue)) (r s : String) (e : Bool),
      jlookup fields "result" = some (.str r) →
      jlookup fields "session_id" = some (.str s) →
      jlookup fields "is_error" = some (.bool e) →
      ∃ resp, parse_response raw sid (some (.obj fields)) = .ok resp ∧
        resp.result = .str r ∧ resp.session_id = .str s ∧ resp.is_error = .bool e)
    ∧ (∀ (raw sid : String) (fields : List (String × JValue)),
      jlookup fields "result" = none →
      jlookup fields "session_id" = none →
      ∃ resp, parse_response raw sid (some (.obj fields)) = .ok resp ∧
        resp.result = .str (pyStrip raw) ∧ resp.session_id = .str sid) := by
  constructor
  · intro raw sid fields r s e hr hs he
    refine ⟨_, rfl, ?_, ?_, ?_⟩ <;> simp [jGetD, hr, hs, he]
  · intro raw sid fields hr hs
    refine ⟨_, rfl, ?_, ?_⟩ <;> simp [jGetD, hr, hs]

/-- C5 witness at a concrete object, and at a concrete object missing
`result` and `session_id`. -/
theorem c5_object_fields_witness :
    (∃ resp,
      parse_response "raw text" "fallback" (some (.obj
        [("result", .str "Hello"), ("session_id", .str "session-xyz"),
         ("is_error", .bool true)])) = .ok resp ∧
      resp.result = .str "Hello" ∧ resp.session_id = .str "session-xyz" ∧
      resp.is_error = .bool true)
    ∧ (∃ resp,
      parse_response " body " "fallback" (some (.obj [("other", .num 1)])) = .ok resp ∧
      resp.result = .str (pyStrip " body ") ∧ resp.session_id = .str "fallback") :=
  ⟨c5_object_fields.1 "raw text" "fallback" _ "Hello" "session-xyz" true rfl rfl rfl,
   c5_object_fields.2 " body " "fallback" _ rfl rfl⟩

/-- Helper: every member of the model-flag segment is `--model` or the model
name itself. -/
theorem mem_modelSegment {x : String} {model : Option String}
    (hx : x ∈ (if strTruthy model then ["--model", model.getD ""] else [])) :
    x = "--model" ∨ ∃ m, model = some m ∧ x = m := by
  by_cases h : strTruthy model
  · rw [if_pos h] at hx
    rcases List.mem_pair.mp hx with h1 | h2
    · exact Or.inl h1
    · cases model with
      | none => simp [strTruthy] at h
      | some m => exact Or.inr ⟨m, rfl, h2⟩
  · rw [if_neg h] at hx
    exact absurd hx (List.not_mem_nil x)

/-- Helper: membership in the command tail for `resume=True` with a
non-empty session id. -/
theorem mem_cmdTail_resume {x : String} {model : Option String} {sid prompt : String}
    (hs : sid ≠ "") (hx : x ∈ cmdTail model (some sid) true prompt) :
    x = "--model" ∨ (∃ m, model = some m ∧ x = m)
      ∨ x = "--resume" ∨ x = sid ∨ x = "--" ∨ x = prompt := by
  have hsb : strTruthy (some sid) = true := by simp [strTruthy, hs]
  unfold cmdTail at hx
  rw [hsb] at hx
  simp only [Bool.true_and, if_pos] at hx
  rcases List.mem_append.mp hx with h | h
  · rcases List.mem_append.mp h with h1 | h1
    · rcases mem_modelSegment h1 with h2 | h2
      · exact Or.inl h2
      · exact Or.inr (Or.inl h2)
    · rcases List.mem_pair.mp h1 with h2 | h2
      · exact Or.inr (Or.inr (Or.inl h2))
      · exact Or.inr (Or.inr (Or.inr (Or.inl h2)))
  · rcases List.mem_pair.mp h with h2 | h2
    · exact Or.inr (Or.inr (Or.inr (Or.inr (Or.inl h2))))
    · exact Or.inr (Or.inr (Or.inr (Or.inr (Or.inr h2))))

/-- Helper: membership in the command tail for `resume=True` without a
session id. -/
theorem mem_cmdTail_nosid {x : String} {model : Option String} {prompt : String}
    (hx : x ∈ cmdTail model none true prompt) :
    x = "--model" ∨ (∃ m, model = some m ∧ x = m) ∨ x = "--" ∨ x = prompt := by
  have hx2 : x ∈ (if strTruthy model then ["--model", model.getD ""] else [])
      ++ ["--", prompt] := by
    simpa [cmdTail, strTruthy] using hx
  rcases List.mem_append.mp hx2 with h | h
  · rcases mem_modelSegment h with h2 | h2
    · exact Or.inl h2
    · exact Or.inr (Or.inl h2)
  · rcases List.mem_pair.mp h with h2 | h2
    · exact Or.inr (Or.inr (Or.inl h2))
    · exact Or.inr (Or.inr (Or.inr h2))

/-- C6: with `resume=True` and a supplied (non-empty) session id, both
invocation argument lists contain `--resume` immediately followed by that
session id and do not contain `--session-id`; with `resume=True` and no
session id, they contain neither selector.  The non-membership parts assume
the executable path, prompt and model name are not themselves spelled like
the selector flags. -/
theorem c6_session_selector_args :
    (∀ (exe prompt sid : String) (model : Option String), sid ≠ "" →
      (∃ pre post, invokeClaudeCmd exe model (some sid) true prompt
          = pre ++ ["--resume", sid] ++ post)
      ∧ (∃ pre post, invokeClaudeStreamingCmd exe model (some sid) true prompt
          = pre ++ ["--resume", sid] ++ post))
    ∧ (∀ (exe prompt sid : String) (model : Option String),
      sid ≠ "" → sid ≠ "--session-id" →
      exe ≠ "--session-id" → prompt ≠ "--session-id" →
      (∀ m, model = some m → m ≠ "--session-id") →
      "--session-id" ∉ invokeClaudeCmd exe model (some sid) true prompt
      ∧ "--session-id" ∉ invokeClaudeStreamingCmd exe model (some sid) true prompt)
    ∧ (∀ (exe prompt : String) (model : Option String),
      exe ≠ "--resume" → exe ≠ "--session-id" →
      prompt ≠ "--resume" → prompt ≠ "--session-id" →
      (∀ m, model = some m → m ≠ "--resume" ∧ m ≠ "--session-id") →
      ("--resume" ∉ invokeClaudeCmd exe model none true prompt
        ∧ "--session-id" ∉ invokeClaudeCmd exe model none true prompt)
      ∧ ("--resume" ∉ invokeClaudeStreamingCmd exe model none true prompt
        ∧ "--session-id" ∉ invokeClaudeStreamingCmd exe model none true prompt)) := by
  refine ⟨?_, ?_, ?_⟩
  · intro exe prompt sid model hs
    constructor
    · exact ⟨[exe, "--print", "--verbose", "--output-format", "json"]
          ++ (if strTruthy model then ["--model", model.getD ""] else []),
        ["--", prompt],
        by simp [invokeClaudeCmd, cmdTail, strTruthy, hs]⟩
    · exact ⟨[exe, "--verbose", "--output-format", "stream-json"]
          ++ (if strTruthy model then ["--model", model.getD ""] else []),
        ["--", prompt],
        by simp [invokeClaudeStreamingCmd, cmdTail, strTruthy, hs]⟩
  · intro exe prompt sid model hs hs2 hexe hprompt hm
    constructor
    all_goals
      intro hmem
      simp only [invokeClaudeCmd, invokeClaudeStreamingCmd] at hmem
      rcases List.mem_append.mp hmem with h | h
      · rcases List.mem_cons.mp h with h1 | h1
        · exact hexe h1.symm
        · exact absurd h1 (by decide)
      · rcases mem_cmdTail_resume hs h with h1 | ⟨m, hm1, hm2⟩ | h1 | h1 | h1 | h1
        · exact absurd h1 (by decide)
        · exact hm m hm1 hm2.symm
        · exact absurd h1 (by decide)
        · exact hs2 h1.symm
        · exact absurd h1 (by decide)
        · exact hprompt h1.symm
  · intro exe prompt model hexe1 hexe2 hp1 hp2 hm
    constructor
    all_goals constructor
    all_goals
      intro hmem
      simp only [invokeClaudeCmd, invokeClaudeStreamingCmd] at hmem
      rcases List.mem_append.mp hmem with h | h
      · rcases List.mem_cons.mp h with h1 | h1
        · first
          | exact hexe1 h1.symm
          | exact hexe2 h1.symm
        · exact absurd h1 (by decide)
      · rcases mem_cmdTail_nosid h with h1 | ⟨m, hm1, hm2⟩ | h1 | h1
        · exact absurd h1 (by decide)
        · rcases hm m hm1 with ⟨hma, hmb⟩
          first
          | exact hma hm2.symm
          | exact hmb hm2.symm
        · exact absurd h1 (by decide)
        · first
          | exact hp1 h1.symm
          | exact hp2 h1.symm

/-- C6 witness at concrete inputs. -/
theorem c6_session_selector_args_witness :
    ((∃ pre post, invokeClaudeCmd "claude" none (some "abc") true "hello"
        = pre ++ ["--resume", "abc"] ++ post)
      ∧ (∃ pre post, invokeClaudeStreamingCmd "claude" none (some "abc") true "hello"
        = pre ++ ["--resume", "abc"] ++ post))
    ∧ ("--session-id" ∉ invokeClaudeCmd "claude" none (some "abc") true "hello"
      ∧ "--session-id" ∉ invokeClaudeStreamingCmd "claude" none (some "abc") true "hello")
    ∧ (("--resume" ∉ invokeClaudeCmd "claude" none none true "hello"
        ∧ "--session-id" ∉ invokeClaudeCmd "claude" none none true "hello")
      ∧ ("--resume" ∉ invokeClaudeStreamingCmd "claude" none none true "hello"
        ∧ "--session-id" ∉ invokeClaudeStreamingCmd "claude" none none true "hello")) :=
  ⟨c6_session_selector_args.1 "claude" "hello" "abc" none (by decide),
   c6_session_selector_args.2.1 "claude" "hello" "abc" none (by decide) (by decide)
     (by decide) (by decide) (fun m hm => by cases hm),
   c6_session_selector_args.2.2 "claude" "hello" none (by decide) (by decide)
     (by decide) (by decide) (fun m hm => by cases hm)⟩

/-- C7: on a subprocess invocation exceeding its configured (positive)
timeout, with a session id supplied: `process.kill()` runs exactly once (in
streaming mode, given the process had not already exited), the per-session
state directory cleanup is attempted and — when the directory exists and
deletion does not fail — succeeds, any deletion failure being swallowed, and
the invocation fails with the timeout error message, not the
exited-with-code one.  Stated for both the batch and the streaming
invocation. -/
theorem c7_timeout_kill_and_cleanup :
    (∀ (sid : String) (t : Int) (fs : FsOracle),
      sid ≠ "" → 0 < t →
      (invoke_claude_model (some sid) t .timedOut fs).kills = 1
      ∧ (invoke_claude_model (some sid) t .timedOut fs).result
          = .error (.claudeCode ("Claude Code timed out after " ++ toString t ++ "s"))
      ∧ (invoke_claude_model (some sid) t .timedOut fs).cleanupAttempted = true
      ∧ (fs.dirExists = true → fs.rmFails = false →
          (invoke_claude_model (some sid) t .timedOut fs).cleanupSucceeded = true))
    ∧ (∀ (sid : String) (t : Int) (lines : List (Option JValue)) (k : Nat)
        (exit : Int) (stderrTail : String) (fs : FsOracle) (hasCB : Bool)
        (oracle : Nat → Bool),
      sid ≠ "" → 0 < t →
      (invoke_claude_streaming_model (some sid) t lines (some k) true exit
          stderrTail fs hasCB oracle).kills = 1
      ∧ (invoke_claude_streaming_model (some sid) t lines (some k) true exit
          stderrTail fs hasCB oracle).result
          = .error (.claudeCode ("Claude Code timed out after " ++ toString t ++ "s"))
      ∧ (invoke_claude_streaming_model (some sid) t lines (some k) true exit
          stderrTail fs hasCB oracle).cleanupAttempted = true
      ∧ (fs.dirExists = true → fs.rmFails = false →
          (invoke_claude_streaming_model (some sid) t lines (some k) true exit
            stderrTail fs hasCB oracle).cleanupSucceeded = true)) := by
  constructor
  · intro sid t fs hs _ht
    refine ⟨rfl, rfl, ?_, ?_⟩
    · simp [invoke_claude_model, strTruthy, hs]
    · intro h1 h2
      simp [invoke_claude_model, strTruthy, hs, h1, h2]
  · intro sid t lines k exit stderrTail fs hasCB oracle hs _ht
    refine ⟨rfl, rfl, ?_, ?_⟩
    · simp [invoke_claude_streaming_model, strTruthy, hs]
    · intro h1 h2
      simp [invoke_claude_streaming_model, strTruthy, hs, h1, h2]

/-- C7 witness at concrete inputs. -/
theorem c7_timeout_kill_and_cleanup_witness :
    ((invoke_claude_model (some "s1") 600 .timedOut ⟨true, false⟩).kills = 1
      ∧ (invoke_claude_model (some "s1") 600 .timedOut ⟨true, false⟩).result
        = .error (.claudeCode ("Claude Code timed out after " ++ toString (600 : Int) ++ "s"))
      ∧ (invoke_claude_model (some "s1") 600 .timedOut ⟨true, false⟩).cleanupAttempted = true
      ∧ (invoke_claude_model (some "s1") 600 .timedOut ⟨true, false⟩).cleanupSucceeded = true)
    ∧ ((invoke_claude_streaming_model (some "s1") 600 [] (some 0) true 0 ""
          ⟨true, false⟩ false (fun _ => false)).kills = 1
      ∧ (invoke_claude_streaming_model (some "s1") 600 [] (some 0) true 0 ""
          ⟨true, false⟩ false (fun _ => false)).result
        = .error (.claudeCode ("Claude Code timed out after " ++ toString (600 : Int) ++ "s"))
      ∧ (invoke_claude_streaming_model (some "s1") 600 [] (some 0) true 0 ""
          ⟨true, false⟩ false (fun _ => false)).cleanupAttempted = true
      ∧ (invoke_claude_streaming_model (some "s1") 600 [] (some 0) true 0 ""
          ⟨true, false⟩ false (fun _ => false)).cleanupSucceeded = true) := by
  have h := c7_timeout_kill_and_cleanup
  have h1 := h.1 "s1" 600 ⟨true, false⟩ (by decide) (by decide)
  have h2 := h.2 "s1" 600 [] 0 0 "" ⟨true, false⟩ false (fun _ => false)
    (by decide) (by decide)
  exact ⟨⟨h1.1, h1.2.1, h1.2.2.1, h1.2.2.2 rfl rfl⟩,
         ⟨h2.1, h2.2.1, h2.2.2.1, h2.2.2.2 rfl rfl⟩⟩

/-- C1: evaluation of the streaming invocation at a stream containing an
explicit `error` event followed by a further event.  Contrary to the claim,
the invocation does not raise: the `raise ClaudeCodeError` of
claude_code.py line 492 sits inside the same per-line `try` whose
`except Exception` (line 494) swallows every exception, so the error event
is logged and skipped, the subsequent line is still processed (the progress
text becomes `"after"`), the subprocess is never killed, and the run
returns a success response. -/
theorem c1_error_event_swallowed :
    (invoke_claude_streaming_model (some "orig") 600
      [some (.obj [("type", .str "error"),
                   ("error", .obj [("message", .str "boom")])]),
       some (.obj [("type", .str "assistant"),
                   ("message", .obj [("content", .arr
                     [.obj [("type", .str "text"), ("text", .str "after")]])])])]
      none true 0 "" ⟨false, false⟩ true (fun _ => false)).kills = 0
    ∧ (invoke_claude_streaming_model (some "orig") 600
      [some (.obj [("type", .str "error"),
                   ("error", .obj [("message", .str "boom")])]),
       some (.obj [("type", .str "assistant"),
                   ("message", .obj [("content", .arr
                     [.obj [("type", .str "text"), ("text", .str "after")]])])])]
      none true 0 "" ⟨false, false⟩ true (fun _ => false)).state.progress.current_text
      = .str "after"
    ∧ (invoke_claude_streaming_model (some "orig") 600
      [some (.obj [("type", .str "error"),
                   ("error", .obj [("message", .str "boom")])]),
       some (.obj [("type", .str "assistant"),
                   ("message", .obj [("content", .arr
                     [.obj [("type", .str "text"), ("text", .str "after")]])])])]
      none true 0 "" ⟨false, false⟩ true (fun _ => false)).result
      = .ok { result := .str "", session_id := .str "orig",
              is_error := .bool false, input_tokens := .num 0,
              output_tokens := .num 0, total_cost := .num 0 } :=
  ⟨rfl, rfl, rfl⟩

/-- C2: evaluation of the streaming invocation at a clean (exit 0) stream
consisting of an assistant text event (`"Hi"`) followed by a `result` event
carrying result `"Hello"`, session id `"agent-sid"` and token/cost totals.
Contrary to the claim, the returned response has an empty result, the
caller's original session id and zero token/cost totals: `read_stream`
assigns `final_result`/`returned_session_id` without `nonlocal`, so the
parsed result text only reaches the read_stream-local variable (third
conjunct), and line 485 dies on the unbound local `returned_session_id`
before the token/cost updates of lines 486-488 ever run.  The final forced
callback with cleared tool/thinking flags does occur (second conjunct). -/
theorem c2_streaming_response_drops_stream_fields :
    (invoke_claude_streaming_model (some "orig") 600
      [some (.obj [("type", .str "assistant"),
                   ("message", .obj [("content", .arr
                     [.obj [("type", .str "text"), ("text", .str "Hi")]])])]),
       some (.obj [("type", .str "result"), ("result", .str "Hello"),
                   ("session_id", .str "agent-sid"), ("input_tokens", .num 7),
                   ("output_tokens", .num 9), ("total_cost_usd", .num 3)])]
      none true 0 "" ⟨false, false⟩ true (fun _ => false)).result
      = .ok { result := .str "", session_id := .str "orig",
              is_error := .bool false, input_tokens := .num 0,
              output_tokens := .num 0, total_cost := .num 0 }
    ∧ (invoke_claude_streaming_model (some "orig") 600
      [some (.obj [("type", .str "assistant"),
                   ("message", .obj [("content", .arr
                     [.obj [("type", .str "text"), ("text", .str "Hi")]])])]),
       some (.obj [("type", .str "result"), ("result", .str "Hello"),
                   ("session_id", .str "agent-sid"), ("input_tokens", .num 7),
                   ("output_tokens", .num 9), ("total_cost_usd", .num 3)])]
      none true 0 "" ⟨false, false⟩ true (fun _ => false)).state.callbacks.getLast?
      = some { current_text := .str "Hi", tool_name := .null, tool_status := .null,
               is_thinking := false, total_cost := .num 0, input_tokens := .num 0,
               output_tokens := .num 0 }
    ∧ (invoke_claude_streaming_model (some "orig") 600
      [some (.obj [("type", .str "assistant"),
                   ("message", .obj [("content", .arr
                     [.obj [("type", .str "text"), ("text", .str "Hi")]])])]),
       some (.obj [("type", .str "result"), ("result", .str "Hello"),
                   ("session_id", .str "agent-sid"), ("input_tokens", .num 7),
                   ("output_tokens", .num 9), ("total_cost_usd", .num 3)])]
      none true 0 "" ⟨false, false⟩ true (fun _ => false)).state.localFinal
      = some (.str "Hello") :=
  ⟨rfl, rfl, rfl⟩

/-- C8: `update_job` is a partial update — `status` (the required argument)
is always written, the identity columns and the progress log are never
touched, each optional column is left unchanged when its argument is `None`;
in particular, supplying only `status` and `completed_at` leaves a
previously-set `result` unchanged; and rows of other jobs are untouched. -/
theorem c8_update_job_partial :
    (∀ (row : JobRow) (p : UpdateParams),
      (updateJobRow row p).status = p.status
      ∧ (updateJobRow row p).id = row.id
      ∧ (updateJobRow row p).thread_ts = row.thread_ts
      ∧ (updateJobRow row p).channel = row.channel
      ∧ (updateJobRow row p).message = row.message
      ∧ (updateJobRow row p).session_id = row.session_id
      ∧ (updateJobRow row p).created_at = row.created_at
      ∧ (updateJobRow row p).progress = row.progress
      ∧ (p.started_at = none → (updateJobRow row p).started_at = row.started_at)
      ∧ (p.completed_at = none → (updateJobRow row p).completed_at = row.completed_at)
      ∧ (p.result = none → (updateJobRow row p).result = row.result)
      ∧ (p.error = none → (updateJobRow row p).error = row.error)
      ∧ (p.input_tokens = none → (updateJobRow row p).input_tokens = row.input_tokens)
      ∧ (p.output_tokens = none → (updateJobRow row p).output_tokens = row.output_tokens)
      ∧ (p.total_cost_usd = none → (updateJobRow row p).total_cost_usd = row.total_cost_usd)
      ∧ (p.duration_seconds = none →
          (updateJobRow row p).duration_seconds = row.duration_seconds))
    ∧ (∀ (row : JobRow) (st ct : String),
      (updateJobRow row { status := st, completed_at := some ct }).result = row.result
      ∧ (updateJobRow row { status := st, completed_at := some ct }).status = st
      ∧ (updateJobRow row { status := st, completed_at := some ct }).completed_at = some ct)
    ∧ (∀ (table : List JobRow) (jid : String) (p : UpdateParams) (r : JobRow),
      r ∈ table → r.id ≠ jid → r ∈ update_job table jid p) := by
  refine ⟨?_, ?_, ?_⟩
  · intro row p
    refine ⟨rfl, rfl, rfl, rfl, rfl, rfl, rfl, rfl, ?_, ?_, ?_, ?_, ?_, ?_, ?_, ?_⟩
      <;> intro h <;> simp [updateJobRow, h]
  · intro row st ct
    exact ⟨rfl, rfl, rfl⟩
  · intro table jid p r hr hne
    unfold update_job
    exact List.mem_map.mpr ⟨r, hr, by simp [hne]⟩

/-- C8 witness at a concrete row and parameter set. -/
theorem c8_update_job_partial_witness :
    ({ status := "completed", completed_at := some "T1" } : UpdateParams).result = none
    ∧ (updateJobRow
        { id := "j1", thread_ts := "t1", channel := "C", message := "m",
          status := "running", created_at := "2024-01-01", result := some "old" }
        { status := "completed", completed_at := some "T1" }).result = some "old" := by
  refine ⟨rfl, ?_⟩
  obtain ⟨_, _, _, _, _, _, _, _, _, _, hres, _⟩ :=
    c8_update_job_partial.1
      { id := "j1", thread_ts := "t1", channel := "C", message := "m",
        status := "running", created_at := "2024-01-01", result := some "old" }
      { status := "completed", completed_at := some "T1" }
  exact hres rfl

/-- Helper: a successful registry lookup means some entry has that key. -/
theorem slookup_any {sessions : List (String × String)} {thread sid : String}
    (h : slookup sessions thread = some sid) :
    sessions.any (fun kv => kv.fst == thread) = true := by
  induction sessions with
  | nil => simp [slookup] at h
  | cons kv rest ih =>
    rw [slookup] at h
    by_cases hk : kv.fst == thread
    · simp [List.any_cons, hk]
    · rw [if_neg hk] at h
      simp [List.any_cons, ih h]

/-- C9: `abort_session` looks up the thread's session; on a successful
directory deletion it removes the registry entry and returns success; when
the thread has no session, the directory does not exist, or deletion fails,
it returns failure without mutating the registry (and without raising —
the embedded function is total). -/
theorem c9_abort_session :
    ∀ (sessions : List (String × String)) (thread : String) (fs : FsOracle),
      (slookup sessions thread = none →
        abort_session sessions thread fs
          = { sessions := sessions, succeeded := false, rmtreeCalled := false })
      ∧ (∀ sid, slookup sessions thread = some sid → sid ≠ "" →
          fs.dirExists = true → fs.rmFails = false →
          abort_session sessions thread fs
            = { sessions := sessions.filter fun kv => kv.fst != thread,
                succeeded := true, rmtreeCalled := true })
      ∧ (∀ sid, slookup sessions thread = some sid → sid ≠ "" →
          fs.dirExists = false →
          abort_session sessions thread fs
            = { sessions := sessions, succeeded := false, rmtreeCalled := false })
      ∧ (∀ sid, slookup sessions thread = some sid → sid ≠ "" →
          fs.dirExists = true → fs.rmFails = true →
          abort_session sessions thread fs
            = { sessions := sessions, succeeded := false, rmtreeCalled := true }) := by
  intro sessions thread fs
  refine ⟨?_, ?_, ?_, ?_⟩
  · intro h
    simp [abort_session, h]
  · intro sid h hsid h1 h2
    simp [abort_session, h, hsid, h1, h2, remove_session, slookup_any h]
  · intro sid h hsid h1
    simp [abort_session, h, hsid, h1]
  · intro sid h hsid h1 h2
    simp [abort_session, h, hsid, h1, h2]

/-- C9 witness: a successful abort and a no-session abort, concretely. -/
theorem c9_abort_session_witness :
    abort_session [("t1", "s1")] "t1" ⟨true, false⟩
      = { sessions := [("t1", "s1")].filter fun kv => kv.fst != "t1",
          succeeded := true, rmtreeCalled := true }
    ∧ abort_session [("t1", "s1")] "t2" ⟨true, false⟩
      = { sessions := [("t1", "s1")], succeeded := false, rmtreeCalled := false } :=
  ⟨(c9_abort_session [("t1", "s1")] "t1" ⟨true, false⟩).2.1 "s1" rfl (by decide) rfl rfl,
   (c9_abort_session [("t1", "s1")] "t2" ⟨true, false⟩).1 rfl⟩

/-- C10: `add_progress_event` on a job id with no corresponding row is a
silent no-op — the `if row:` guard of job_tracker.py line 336 makes the
function return with the table unchanged, appending nothing and raising
nothing (the embedded function is total). -/
theorem c10_add_progress_event_missing_job_noop :
    ∀ (table : List JobRow) (jobId eventType message : String)
      (toolName : Option String) (isThinking : Bool) (now : String),
      table.find? (fun r => r.id == jobId) = none →
      add_progress_event table jobId eventType message toolName isThinking now
        = table := by
  intro table jobId eventType message toolName isThinking now h
  simp [add_progress_event, h]

/-- C10 witness at a concrete one-row table and a different job id. -/
theorem c10_add_progress_event_missing_job_noop_witness :
    add_progress_event [{ id := "job-a" }] "job-b" "thinking" "Thinking..."
      none true "T1" = [{ id := "job-a" }] :=
  c10_add_progress_event_missing_job_noop
    [{ id := "job-a" }] "job-b" "thinking" "Thinking..." none true "T1" rfl

/-- Helper: `find?` by id after an id-preserving per-id map commutes. -/
theorem find_map_update (table : List JobRow) (jid : String) (f : JobRow → JobRow)
    (hf : ∀ r, (f r).id = r.id) :
    (table.map fun r => if r.id == jid then f r else r).find? (fun r => r.id == jid)
      = (table.find? fun r => r.id == jid).map f := by
  induction table with
  | nil => rfl
  | cons r rest ih =>
    rw [List.map_cons]
    by_cases h : (r.id == jid) = true
    · have hfr : ((f r).id == jid) = true := by rw [hf r]; exact h
      rw [if_pos h]
      simp only [List.find?_cons, hfr, h]
      rfl
    · have h' : (r.id == jid) = false := by simpa using h
      rw [if_neg h]
      simp only [List.find?_cons, h']
      exact ih

/-- Helper: the job looked up by id after `update_job` is the updated row. -/
theorem find_update_job (table : List JobRow) (jid : String) (p : UpdateParams) :
    (update_job table jid p).find? (fun r => r.id == jid)
      = (table.find? fun r => r.id == jid).map (fun r => updateJobRow r p) :=
  find_map_update table jid _ (fun _ => rfl)

/-- Helper: the job looked up by id after `append_to_result` carries the
concatenated result. -/
theorem find_append_to_result (table : List JobRow) (jid text : String) :
    (append_to_result table jid text).find? (fun r => r.id == jid)
      = (table.find? fun r => r.id == jid).map
          (fun r => { r with result := some ((r.result.getD "") ++ text) }) :=
  find_map_update table jid _ (fun _ => rfl)

/-- Helper: the job looked up by id after `add_progress_event` carries the
appended progress log. -/
theorem find_add_progress (table : List JobRow)
    (jid eventType message : String) (toolName : Option String)
    (isThinking : Bool) (now : String) :
    (add_progress_event table jid eventType message toolName isThinking now).find?
        (fun r => r.id == jid)
      = (table.find? fun r => r.id == jid).map
          (fun r => { r with progress := r.progress ++
            [{ type := eventType, message := message, timestamp := now,
               tool_name := toolName, is_thinking := isThinking }] }) := by
  unfold add_progress_event
  cases h : table.find? (fun r => r.id == jid) with
  | none => simp [h]
  | some row =>
    simp only [h]
    rw [find_map_update table jid
      (fun r => { r with progress := row.progress ++
        [{ type := eventType, message := message, timestamp := now,
           tool_name := toolName, is_thinking := isThinking }] })
      (fun _ => rfl), h]
    rfl

/-- C3: a thread reply for a thread that has a session and an existing job
re-opens that job to `running` (no new job is created), invokes the agent
with `resume=True` and the existing session id, and on a successful
non-empty response appends the (truncated) response text to the job's prior
`result` instead of replacing it, marking the job completed. -/
theorem c3_thread_reply_reopens_and_appends :
    ∀ (sessions : List (String × String)) (table : List JobRow)
      (thread channel text now freshId sid prior : String) (job : JobRow)
      (resp : RespS),
      slookup sessions thread = some sid → sid ≠ "" → pyStrip text ≠ "" →
      get_job_by_thread table thread = some job →
      table.find? (fun r => r.id == job.id) = some job →
      job.result = some prior →
      pyStrip resp.result ≠ "" →
      (handle_message_model sessions table thread channel text now freshId
        (.ok resp)).createdNewJob = false
      ∧ (handle_message_model sessions table thread channel text now freshId
        (.ok resp)).invocation
        = some { prompt := text, sessionId := some sid, resume := true }
      ∧ (handle_message_model sessions table thread channel text now freshId
        (.ok resp)).ops
        = [.updateJob job.id { status := "running", started_at := some now },
           .addProgress job.id "progress" "⏳ Working... (30s)",
           .appendToResult job.id (resp.result.take 5000),
           .updateJob job.id { status := "completed", completed_at := some now,
                               input_tokens := some resp.input_tokens,
                               output_tokens := some resp.output_tokens,
                               total_cost_usd := some resp.total_cost }]
      ∧ ∃ fin, (handle_message_model sessions table thread channel text now freshId
            (.ok resp)).table.find? (fun r => r.id == job.id) = some fin
          ∧ fin.result = some (prior ++ resp.result.take 5000)
          ∧ fin.status = "completed" := by
  intro sessions table thread channel text now freshId sid prior job resp
    hlook hsid htext hjob hfind hprior htrim
  have hr0 : resp.result ≠ "" := fun he => htrim (by rw [he]; rfl)
  have hsb : (sid == "") = false := beq_eq_false_iff_ne.mpr hsid
  have htb : (pyStrip text == "") = false := beq_eq_false_iff_ne.mpr htext
  have hrb : (resp.result == "") = false := beq_eq_false_iff_ne.mpr hr0
  have hrtb : (pyStrip resp.result == "") = false := beq_eq_false_iff_ne.mpr htrim
  refine ⟨?_, ?_, ?_, ?_⟩
  · simp [handle_message_model, runJobFlow, hlook, hjob, hsb, htb, hrb, hrtb]
  · simp [handle_message_model, runJobFlow, hlook, hjob, hsb, htb, hrb, hrtb]
  · simp [handle_message_model, runJobFlow, hlook, hjob, hsb, htb, hrb, hrtb]
  · have htable : (handle_message_model sessions table thread channel text now freshId
        (.ok resp)).table
        = update_job
            (append_to_result
              (add_progress_event
                (update_job table job.id { status := "running", started_at := some now })
                job.id "progress" "⏳ Working... (30s)" none false now)
              job.id (resp.result.take 5000))
            job.id
            { status := "completed", completed_at := some now,
              input_tokens := some resp.input_tokens,
              output_tokens := some resp.output_tokens,
              total_cost_usd := some resp.total_cost } := by
      simp [handle_message_model, runJobFlow, hlook, hjob, hsb, htb, hrb, hrtb]
    simp only [htable, find_update_job, find_append_to_result, find_add_progress,
      hfind, Option.map_some']
    refine ⟨_, rfl, ?_, ?_⟩
    · simp [updateJobRow, hprior]
    · rfl

/-- C3 witness at a concrete registry, table and reply. -/
theorem c3_thread_reply_reopens_and_appends_witness :
    (handle_message_model [("t1", "sid1")]
        [{ id := "j1", thread_ts := "t1", channel := "C", message := "m0",
           status := "completed", created_at := "2024-01-01",
           result := some "old." }]
        "t1" "C" "more" "T2" "f1" (.ok { result := "new" })).createdNewJob = false
    ∧ (handle_message_model [("t1", "sid1")]
        [{ id := "j1", thread_ts := "t1", channel := "C", message := "m0",
           status := "completed", created_at := "2024-01-01",
           result := some "old." }]
        "t1" "C" "more" "T2" "f1" (.ok { result := "new" })).invocation
      = some { prompt := "more", sessionId := some "sid1", resume := true }
    ∧ (handle_message_model [("t1", "sid1")]
        [{ id := "j1", thread_ts := "t1", channel := "C", message := "m0",
           status := "completed", created_at := "2024-01-01",
           result := some "old." }]
        "t1" "C" "more" "T2" "f1" (.ok { result := "new" })).ops
      = [.updateJob "j1" { status := "running", started_at := some "T2" },
         .addProgress "j1" "progress" "⏳ Working... (30s)",
         .appendToResult "j1" (("new" : String).take 5000),
         .updateJob "j1" { status := "completed", completed_at := some "T2",
                           input_tokens := some 0, output_tokens := some 0,
                           total_cost_usd := some 0 }]
    ∧ ∃ fin, (handle_message_model [("t1", "sid1")]
          [{ id := "j1", thread_ts := "t1", channel := "C", message := "m0",
             status := "completed", created_at := "2024-01-01",
             result := some "old." }]
          "t1" "C" "more" "T2" "f1" (.ok { result := "new" })).table.find?
            (fun r => r.id == "j1") = some fin
        ∧ fin.result = some ("old." ++ ("new" : String).take 5000)
        ∧ fin.status = "completed" :=
  c3_thread_reply_reopens_and_appends [("t1", "sid1")]
    [{ id := "j1", thread_ts := "t1", channel := "C", message := "m0",
       status := "completed", created_at := "2024-01-01", result := some "old." }]
    "t1" "C" "more" "T2" "f1" "sid1" "old."
    { id := "j1", thread_ts := "t1", channel := "C", message := "m0",
      status := "completed", created_at := "2024-01-01", result := some "old." }
    { result := "new" }
    rfl (by decide) (by decide) rfl rfl rfl (by decide)

end Bender
